import Mathlib

/-!
# Linear elastodynamics solver (`src/LinearElasticity.tpp`)

A shallow embedding of the class `LinearElasticity<dim>`: the object is a record,
every member function is a function on that record, and the finite-element
toolkit the class calls into (mesh, shape functions, quadrature, boundary
elimination, the direct solver, `std::cos`) is a record of collaborators.
`double` is an arbitrary linearly ordered field `α` (exact arithmetic); the
results about the cosine ramp are stated over the reals.
-/

set_option linter.unusedSectionVars false
set_option maxHeartbeats 1000000

namespace DealFSI

open scoped BigOperators
open Matrix

/-- The type `Vector<double>` with `n` entries. -/
abbrev Vector (α : Type) (n : Nat) : Type := Fin n → α

/-- The type `SparseMatrix<double>` on `n` degrees of freedom; the sparsity pattern holds
every pair of indices a cell couples, so entries are addressed densely. -/
abbrev SparseMatrix (α : Type) (n : Nat) : Type := Matrix (Fin n) (Fin n) α

/-- One face of a cell as `FEFaceValues` presents it. The source asserts
`dofs_per_face == n_quadrature_points * dim`; `local_face_dof_indices` has that
many entries by its type. -/
structure Face (α : Type) (n dim dofs_per_cell n_face_q_points : Nat) where
  at_boundary : Bool
  boundary_id : Nat
  shape_value : Fin dofs_per_cell → Fin n_face_q_points → α
  JxW : Fin n_face_q_points → α
  local_face_dof_indices : Fin (n_face_q_points * dim) → Fin n

/-- One active cell as `FEValues` presents it after `reinit( cell )`. -/
structure Cell (α : Type) (n dim dofs_per_cell n_q_points n_face_q_points : Nat) where
  local_dof_indices : Fin dofs_per_cell → Fin n
  shape_grad : Fin dofs_per_cell → Fin n_q_points → Fin dim → α
  JxW : Fin n_q_points → α
  faces : List (Face α n dim dofs_per_cell n_face_q_points)

/-- What `get_traction` takes from `<cmath>`. -/
structure Libm (α : Type) where
  /-- The function `std::cos`. -/
  cos : α → α
  /-- The constant `M_PI`. -/
  M_PI : α

/-- What the class takes from deal.II and libm: none of it is in the sources, so
it is a parameter of every member function that uses it. -/
structure Collaborators (α : Type) (n : Nat) where
  libm : Libm α
  dim : Nat
  dofs_per_cell : Nat
  n_q_points : Nat
  n_face_q_points : Nat
  /-- The component `fe.system_to_component_index( i ).first`. -/
  system_to_component_index : Fin dofs_per_cell → Fin dim
  /-- The active cells, in iteration order. -/
  cells : List (Cell α n dim dofs_per_cell n_q_points n_face_q_points)
  /-- The result of `MatrixCreator::create_mass_matrix`. -/
  create_mass_matrix : SparseMatrix α n
  /-- The result of `VectorTools::create_right_hand_side` for `RightHandSide<dim>( gravity )`
  set to a time: arguments are `gravity` and that time. -/
  create_right_hand_side : α → α → Vector α n
  /-- The call `constraints.condense`. -/
  condense : SparseMatrix α n → SparseMatrix α n
  /-- The call `MatrixTools::apply_boundary_values` with the interpolated zero boundary
  values of boundary 0: from (matrix, solution, right-hand side) to the three
  after elimination. -/
  apply_boundary_values :
    SparseMatrix α n → Vector α n → Vector α n → SparseMatrix α n × Vector α n × Vector α n
  /-- The solver `SparseDirectUMFPACK`: factorise the matrix, then `vmult( solution, rhs )`. -/
  direct_solve : SparseMatrix α n → Vector α n → Vector α n

/-- Modelled from the spec: the class declaration (the header of
`LinearElasticity.tpp`) is not among the sources. The members are those the
member functions read or write; the reals of section 3 of the specification are
elements of `α`, the flag `init` is a Boolean and the step counter
`timestep_number` is a natural number. -/
structure LinearElasticity (α : Type) (n : Nat) where
  deg : α
  n_global_refines : Nat
  time_step : α
  theta : α
  gravity : α
  distributed_load : α
  init : Bool
  initial_time : α
  rho : α
  time : α
  timestep_number : Nat
  mass_matrix : SparseMatrix α n
  laplace_matrix : SparseMatrix α n
  matrix_u : SparseMatrix α n
  matrix_v : SparseMatrix α n
  solution_u : Vector α n
  solution_v : Vector α n
  old_solution_u : Vector α n
  old_solution_v : Vector α n
  system_rhs : Vector α n
  body_force : Vector α n
  old_body_force : Vector α n

variable {α : Type} [LinearOrderedField α] {n : Nat}

/-- The constructor `LinearElasticity<dim>::LinearElasticity` (lines 7-33), named
`new` here because the record already has the class name. `raw` is the storage
before construction: the initialiser list overwrites the members it names and
leaves `time` and `timestep_number` as they were. `none` is a failed `assert`. -/
def LinearElasticity.new (raw : LinearElasticity α n)
    (time_step theta degree gravity distributed_load rho : α) (n_global_refines : Nat) :
    Option (LinearElasticity α n) :=
  let self : LinearElasticity α n :=
    { raw with
      deg := degree
      n_global_refines := n_global_refines
      time_step := time_step
      theta := theta
      gravity := gravity
      distributed_load := distributed_load
      init := false
      initial_time := 0
      rho := rho }
  if ¬ (degree ≥ 1) then none
  else if ¬ (time_step > 0) then none
  else if ¬ (theta ≥ 0 ∧ theta ≤ 1) then none
  else if ¬ (rho > 0) then none
  else some self

/-- Member `get_traction` (lines 458-480). The second argument has no name in the
source and is not read. -/
def get_traction (libm : Libm α) (self : LinearElasticity α n)
    (component_i : Nat) (_dof : Nat) : α :=
  let t := self.time
  let T : α := 0.01
  let offset : α := 0.01
  let value := self.distributed_load
  let value := if t - offset < T then
      value * (0.5 - 0.5 * libm.cos (libm.M_PI * (t - offset) / T))
    else value
  let value := if t < offset then 0.0 else value
  if component_i = 1 then value else 0.0

/-- The integrand sum of lines 152-176: entry `(i, j)` of `cell_matrix` for one cell. -/
def cell_matrix (env : Collaborators α n)
    (lambda_values mu_values : Fin env.n_q_points → α)
    (cell : Cell α n env.dim env.dofs_per_cell env.n_q_points env.n_face_q_points)
    (i j : Fin env.dofs_per_cell) : α :=
  let component_i := env.system_to_component_index i
  let component_j := env.system_to_component_index j
  ∑ q_point : Fin env.n_q_points,
    ((cell.shape_grad i q_point component_i * cell.shape_grad j q_point component_j *
        lambda_values q_point)
      + (cell.shape_grad i q_point component_j * cell.shape_grad j q_point component_i *
        mu_values q_point)
      + (if component_i = component_j then
          (∑ d : Fin env.dim, cell.shape_grad i q_point d * cell.shape_grad j q_point d) *
            mu_values q_point
        else 0))
    * cell.JxW q_point

/-- The face loop of lines 180-200: entry `i` of `cell_rhs` for one cell. -/
def cell_rhs (env : Collaborators α n) (self : LinearElasticity α n)
    (cell : Cell α n env.dim env.dofs_per_cell env.n_q_points env.n_face_q_points)
    (i : Fin env.dofs_per_cell) : α :=
  let component_i := env.system_to_component_index i
  (cell.faces.map fun face =>
    if face.at_boundary = true ∧ face.boundary_id = 3 then
      ∑ q : Fin env.n_face_q_points,
        -get_traction env.libm self component_i.val
            (face.local_face_dof_indices ⟨q.val * env.dim + component_i.val,
              Nat.lt_of_lt_of_le (Nat.add_lt_add_left component_i.isLt _)
                (Nat.succ_mul q.val env.dim ▸ Nat.mul_le_mul_right env.dim q.isLt)⟩).val
          * face.shape_value i q * face.JxW q
    else 0).sum

/-- The local `mu_s` of line 123. -/
def mu_s : α :=
  let nu : α := 0.4
  let E : α := 1.4e6
  E / (2.0 * (1.0 + nu))

/-- The local `lambda_s` of line 124. -/
def lambda_s : α :=
  let nu : α := 0.4
  let E : α := 1.4e6
  nu * E / ((1.0 + nu) * (1.0 - 2.0 * nu))

/-- The scatter of lines 202-210 over all cells, for given coefficient values at
the quadrature points: `laplace_matrix` when the cell loop ends, before
`constraints.condense`. -/
def scatter_cell_matrices (env : Collaborators α n)
    (lambda_values mu_values : Fin env.n_q_points → α) : SparseMatrix α n :=
  Matrix.of fun I J =>
    (env.cells.map fun cell =>
      ∑ i : Fin env.dofs_per_cell, ∑ j : Fin env.dofs_per_cell,
        if cell.local_dof_indices i = I ∧ cell.local_dof_indices j = J then
          cell_matrix env lambda_values mu_values cell i j
        else 0).sum

/-- The scatter of line 211 over all cells: `body_force` when the cell loop ends. -/
def scatter_cell_rhs (env : Collaborators α n) (self : LinearElasticity α n) : Vector α n :=
  fun I =>
    (env.cells.map fun cell =>
      ∑ i : Fin env.dofs_per_cell,
        if cell.local_dof_indices i = I then cell_rhs env self cell i else 0).sum

/-- Member `assemble_system` (lines 93-216): both targets are zeroed, the cell loop
accumulates into them with the constant coefficients `lambda_s`, `mu_s`, and the
stiffness matrix is condensed. -/
def assemble_system (env : Collaborators α n) (self : LinearElasticity α n) :
    LinearElasticity α n :=
  { self with
    body_force := scatter_cell_rhs env self
    laplace_matrix :=
      env.condense (scatter_cell_matrices env (fun _ => lambda_s) (fun _ => mu_s)) }

/-- Member `setup_system` (lines 35-91) from the sparsity pattern on: matrices and
vectors are zeroed, the mass matrix is created, the system is assembled. -/
def setup_system (env : Collaborators α n) (self : LinearElasticity α n) :
    LinearElasticity α n :=
  assemble_system env
    { self with
      mass_matrix := env.create_mass_matrix
      laplace_matrix := 0
      matrix_u := 0
      matrix_v := 0
      solution_u := 0
      solution_v := 0
      old_solution_u := 0
      old_solution_v := 0
      system_rhs := 0
      body_force := 0
      old_body_force := 0 }

/-- Member `initTimeStep` (lines 218-228); `none` is the failed `assert( !init )`. -/
def initTimeStep (self : LinearElasticity α n) : Option (LinearElasticity α n) :=
  if ¬ (!self.init) = true then none
  else some { self with init := true }

/-- Member `output_results` (lines 293-323) returns on its first line. -/
def output_results (_self : LinearElasticity α n) : Unit := ()

/-- Member `finalizeTimeStep` (lines 230-245); `none` is the failed `assert( init )`. -/
def finalizeTimeStep (self : LinearElasticity α n) : Option (LinearElasticity α n) :=
  if ¬ self.init = true then none
  else
    let _ := output_results self
    let self := { self with old_solution_u := self.solution_u }
    let self := { self with old_solution_v := self.solution_v }
    let self := { self with old_body_force := self.body_force }
    let self := { self with timestep_number := self.timestep_number + 1 }
    let self := { self with time := self.initial_time + self.timestep_number * self.time_step }
    some { self with init := false }

/-- Member `isRunning` (lines 247-253). -/
def isRunning (self : LinearElasticity α n) : Bool :=
  let final_time : α := 0.05
  decide (self.time ≤ final_time)

/-- Member `solve_u` (lines 255-272). -/
def solve_u (env : Collaborators α n) (self : LinearElasticity α n) : LinearElasticity α n :=
  { self with solution_u := env.direct_solve self.matrix_u self.system_rhs }

/-- Member `solve_v` (lines 274-291). -/
def solve_v (env : Collaborators α n) (self : LinearElasticity α n) : LinearElasticity α n :=
  { self with solution_v := env.direct_solve self.matrix_v self.system_rhs }

/-- Member `solve`, lines 355-387: the object with `system_rhs` as it is handed to the
first boundary elimination, and the local `forcing_terms`. -/
def solve_displacement_rhs (env : Collaborators α n) (self : LinearElasticity α n) :
    LinearElasticity α n × Vector α n :=
  let self := assemble_system env self
  let system_rhs := self.mass_matrix *ᵥ self.old_solution_u
  let tmp := self.mass_matrix *ᵥ self.old_solution_v
  let system_rhs := system_rhs + self.time_step • tmp
  let tmp := self.laplace_matrix *ᵥ self.old_solution_u
  let system_rhs := system_rhs
    + (-self.theta * (1 - self.theta) * self.time_step * self.time_step / self.rho) • tmp
  let tmp := env.create_right_hand_side self.gravity self.time
  let tmp := tmp + self.body_force
  let forcing_terms := tmp
  let forcing_terms := (self.theta * self.time_step) • forcing_terms
  let tmp := env.create_right_hand_side self.gravity (self.time - self.time_step)
  let tmp := tmp + self.old_body_force
  let forcing_terms := forcing_terms + ((1 - self.theta) * self.time_step) • tmp
  let forcing_terms := (1.0 / self.rho) • forcing_terms
  let system_rhs := system_rhs + (self.theta * self.time_step) • forcing_terms
  ({ self with system_rhs := system_rhs }, forcing_terms)

/-- Member `solve`, lines 389-403: `matrix_u` is formed, boundary values are applied to
(`matrix_u`, `solution_u`, `system_rhs`), and `solve_u` runs. -/
def solve_displacement_system (env : Collaborators α n) (self : LinearElasticity α n) :
    LinearElasticity α n :=
  let matrix_u := self.mass_matrix
  let matrix_u := matrix_u
    + (self.theta * self.theta * self.time_step * self.time_step / self.rho) • self.laplace_matrix
  let r := env.apply_boundary_values matrix_u self.solution_u self.system_rhs
  solve_u env { self with matrix_u := r.1, solution_u := r.2.1, system_rhs := r.2.2 }

/-- Member `solve`, lines 405-417: `system_rhs` as it is handed to the second boundary
elimination. -/
def solve_velocity_rhs (self : LinearElasticity α n) (forcing_terms : Vector α n) :
    LinearElasticity α n :=
  let system_rhs := self.laplace_matrix *ᵥ self.solution_u
  let system_rhs := (-self.theta * self.time_step / self.rho) • system_rhs
  let tmp := self.mass_matrix *ᵥ self.old_solution_v
  let system_rhs := system_rhs + tmp
  let tmp := self.laplace_matrix *ᵥ self.old_solution_u
  let system_rhs := system_rhs + (-self.time_step * (1 - self.theta) / self.rho) • tmp
  let system_rhs := system_rhs + forcing_terms
  { self with system_rhs := system_rhs }

/-- Member `solve`, lines 419-431: `matrix_v` is a copy of the mass matrix, boundary
values are applied to (`matrix_v`, `solution_v`, `system_rhs`), and `solve_v` runs. -/
def solve_velocity_system (env : Collaborators α n) (self : LinearElasticity α n) :
    LinearElasticity α n :=
  let matrix_v := self.mass_matrix
  let r := env.apply_boundary_values matrix_v self.solution_v self.system_rhs
  solve_v env { self with matrix_v := r.1, solution_v := r.2.1, system_rhs := r.2.2 }

/-- Member `solve` (lines 352-432). -/
def solve (env : Collaborators α n) (self : LinearElasticity α n) : LinearElasticity α n :=
  let r := solve_displacement_rhs env self
  let forcing_terms := r.2
  let self := solve_displacement_system env r.1
  let self := solve_velocity_rhs self forcing_terms
  solve_velocity_system env self

/-- How a call that loops can end without a result. -/
inductive Fault where
  | assertion_failed
  | out_of_fuel
  deriving DecidableEq, Repr

/-- The `while ( isRunning() )` loop of `run` (lines 339-346). Every iteration
uses one unit of `fuel`; `iterations` counts the iterations completed so far and
is returned with the object. -/
def run_loop (env : Collaborators α n) :
    Nat → LinearElasticity α n → Nat → Except Fault (LinearElasticity α n × Nat)
  | 0, self, iterations =>
    if isRunning self = true then Except.error Fault.out_of_fuel
    else Except.ok (self, iterations)
  | fuel + 1, self, iterations =>
    if isRunning self = true then
      match initTimeStep self with
      | none => Except.error Fault.assertion_failed
      | some self =>
        let self := solve env self
        match finalizeTimeStep self with
        | none => Except.error Fault.assertion_failed
        | some self => run_loop env fuel self (iterations + 1)
    else Except.ok (self, iterations)

/-- Member `run` (lines 325-350): the object when `run` returns and the number of loop
iterations it executed. -/
def run (env : Collaborators α n) (fuel : Nat) (self : LinearElasticity α n) :
    Except Fault (LinearElasticity α n × Nat) :=
  let self := setup_system env self
  let self := { self with initial_time := 0 }
  let self := { self with timestep_number := 0 }
  let _ := output_results self
  let self := { self with timestep_number := 1 }
  let self := { self with time := self.initial_time + self.time_step }
  match run_loop env fuel self 0 with
  | Except.error e => Except.error e
  | Except.ok (self, iterations) =>
    let self := { self with timestep_number := self.timestep_number - 1 }
    let self := { self with time := self.initial_time + self.timestep_number * self.time_step }
    Except.ok (self, iterations)

/-! ### Reference definitions, written from the specification -/

/-- The traction ramp as the specification writes it (section 4.1): target
magnitude once fully ramped, cosine ramp in between, zero before the onset. -/
def traction_reference (libm : Libm α) (target_magnitude offset T t : α) : α :=
  if t ≥ offset + T then target_magnitude
  else if offset ≤ t then
    target_magnitude * (0.5 * (1 - libm.cos (libm.M_PI * (t - offset) / T)))
  else 0

/-- A call of the per-step interface. -/
inductive StepCall where
  | initTimeStep
  | finalizeTimeStep
  deriving DecidableEq, Repr

/-- One call of the per-step interface on the object. -/
def apply_call : StepCall → LinearElasticity α n → Option (LinearElasticity α n)
  | StepCall.initTimeStep, self => initTimeStep self
  | StepCall.finalizeTimeStep, self => finalizeTimeStep self

/-- A sequence of calls, stopping at the first failed assertion. -/
def run_calls : List StepCall → LinearElasticity α n → Option (LinearElasticity α n)
  | [], self => some self
  | call :: calls, self =>
    match apply_call call self with
    | none => none
    | some self => run_calls calls self


/-- The forcing of the specification, `forcing(τ) = [body_force(τ) + gravity_load(τ)]/ρ`. -/
def forcing (rho : α) (body_force gravity_load : Vector α n) : Vector α n :=
  fun i => (body_force i + gravity_load i) / rho

/-- The forcing contribution of the specification,
`θΔt·forcing(t) + (1−θ)Δt·forcing(t−Δt)`, for the object at the start of `solve`:
`body_force` is the one `solve` assembles, the gravity loads are those of
`create_right_hand_side` at `time` and at `time - time_step`. -/
def forcing_terms_spec (env : Collaborators α n) (self : LinearElasticity α n) : Vector α n :=
  (self.theta * self.time_step) •
      forcing self.rho (assemble_system env self).body_force
        (env.create_right_hand_side self.gravity self.time)
    + ((1 - self.theta) * self.time_step) •
      forcing self.rho self.old_body_force
        (env.create_right_hand_side self.gravity (self.time - self.time_step))

/-- The displacement right-hand side as the specification writes it (section 4.3,
step 2): `M·u_old + Δt·M·v_old − θ(1−θ)Δt²/ρ·K·u_old + θΔt·forcing(t) +
(1−θ)Δt·forcing(t−Δt)`, with `K` the stiffness matrix `solve` assembles. -/
def displacement_rhs_spec (env : Collaborators α n) (self : LinearElasticity α n) :
    Vector α n :=
  self.mass_matrix *ᵥ self.old_solution_u
    + self.time_step • (self.mass_matrix *ᵥ self.old_solution_v)
    - (self.theta * (1 - self.theta) * self.time_step ^ 2 / self.rho) •
        ((assemble_system env self).laplace_matrix *ᵥ self.old_solution_u)
    + forcing_terms_spec env self

/-- The velocity right-hand side as the specification writes it (section 4.3,
step 4) for a displacement `u_new`:
`−θΔt/ρ·K·u_new + M·v_old − (1−θ)Δt/ρ·K·u_old + forcing_terms`. -/
def velocity_rhs_spec (env : Collaborators α n) (self : LinearElasticity α n)
    (u_new : Vector α n) : Vector α n :=
  -((self.theta * self.time_step / self.rho) •
        ((assemble_system env self).laplace_matrix *ᵥ u_new))
    + self.mass_matrix *ᵥ self.old_solution_v
    - ((1 - self.theta) * self.time_step / self.rho) •
        ((assemble_system env self).laplace_matrix *ᵥ self.old_solution_u)
    + forcing_terms_spec env self

/-- A run of `N` time steps, each the three calls of the loop body of `run`; `none` is a
failed assertion. -/
def time_steps (env : Collaborators α n) :
    Nat → LinearElasticity α n → Option (LinearElasticity α n)
  | 0, self => some self
  | N + 1, self =>
    match initTimeStep self with
    | none => none
    | some self =>
      match finalizeTimeStep (solve env self) with
      | none => none
      | some self => time_steps env N self

/-! ### A small concrete discretisation -/

/-- A boundary face with marker 3 and one quadrature point. -/
def example_face : Face ℚ 2 2 2 1 where
  at_boundary := true
  boundary_id := 3
  shape_value := fun _ _ => 1
  JxW := fun _ => 1 / 10
  local_face_dof_indices := fun k => ⟨k.val % 2, Nat.mod_lt _ (by decide)⟩

/-- A cell with two local degrees of freedom, one per component, and one
quadrature point. -/
def example_cell : Cell ℚ 2 2 2 1 1 where
  local_dof_indices := fun i => i
  shape_grad := fun i _ d => if i = d then 1 else 2
  JxW := fun _ => 1 / 10
  faces := [example_face]

/-- Collaborators over the rationals: one cell, a unit mass matrix, a gravity
load acting on component 1, no boundary elimination, and a solver for diagonal
matrices. The stand-in for `std::cos` is the quadratic Taylor polynomial. -/
def example_env : Collaborators ℚ 2 where
  libm := { cos := fun x => 1 - x * x / 2, M_PI := 22 / 7 }
  dim := 2
  dofs_per_cell := 2
  n_q_points := 1
  n_face_q_points := 1
  system_to_component_index := fun i => i
  cells := [example_cell]
  create_mass_matrix := 1
  create_right_hand_side := fun gravity _ => fun i => if i = 1 then -gravity else 0
  condense := fun A => A
  apply_boundary_values := fun A x b => (A, x, b)
  direct_solve := fun A b => fun i => b i / A i i

/-- An object at the start of its first step: `time = time_step = 1/100`,
`theta = 1/2`, `rho = 1000`, everything from the previous step zero. -/
def example_object : LinearElasticity ℚ 2 where
  deg := 1
  n_global_refines := 0
  time_step := 1 / 100
  theta := 1 / 2
  gravity := 2
  distributed_load := 5
  init := false
  initial_time := 0
  rho := 1000
  time := 1 / 100
  timestep_number := 1
  mass_matrix := 1
  laplace_matrix := 0
  matrix_u := 0
  matrix_v := 0
  solution_u := 0
  solution_v := 0
  old_solution_u := 0
  old_solution_v := 0
  system_rhs := 0
  body_force := 0
  old_body_force := 0

/-- The displacement of the example object's first step. -/
def example_u_new : Vector ℚ 2 := ![1 / 1025056250, -(81 / 820045000)]

/-- The velocity of the example object's first step. -/
def example_v_new : Vector ℚ 2 := ![4 / 20501125, -(81 / 4100225)]

/-! ### Theorems -/

/-- C7: the constructor returns an object exactly when `degree ≥ 1`,
`time_step > 0`, `0 ≤ theta ≤ 1` and `rho > 0`; when any of the four fails it
returns none, whatever `gravity`, `distributed_load` and `n_global_refines` are. -/
theorem constructor_accepts_iff (raw : LinearElasticity α n)
    (time_step theta degree gravity distributed_load rho : α) (n_global_refines : Nat) :
    ((LinearElasticity.new raw time_step theta degree gravity distributed_load rho
          n_global_refines).isSome = true
        ↔ (degree ≥ 1 ∧ time_step > 0 ∧ (0 ≤ theta ∧ theta ≤ 1) ∧ rho > 0))
    ∧ (¬ (degree ≥ 1 ∧ time_step > 0 ∧ (0 ≤ theta ∧ theta ≤ 1) ∧ rho > 0)
        → LinearElasticity.new raw time_step theta degree gravity distributed_load rho
            n_global_refines = none) := by
  have key : (LinearElasticity.new raw time_step theta degree gravity distributed_load rho
          n_global_refines).isSome = true
        ↔ (degree ≥ 1 ∧ time_step > 0 ∧ (0 ≤ theta ∧ theta ≤ 1) ∧ rho > 0) := by
    unfold LinearElasticity.new
    by_cases h1 : degree ≥ 1 <;> by_cases h2 : time_step > 0 <;>
      by_cases h3 : (theta ≥ 0 ∧ theta ≤ 1) <;> by_cases h4 : rho > 0 <;>
      simp [h1, h2, h3, h4]
  refine ⟨key, fun h => ?_⟩
  rw [← Option.not_isSome_iff_eq_none, key]
  exact h

/-- After `initTimeStep` succeeds the flag is set; it fails exactly on a set flag. -/
theorem initTimeStep_spec (self : LinearElasticity α n) :
    (initTimeStep self = none ↔ self.init = true)
    ∧ (self.init = false → initTimeStep self = some { self with init := true }) := by
  unfold initTimeStep
  cases h : self.init <;> simp

/-- After `finalizeTimeStep` succeeds the flag is clear; it fails exactly on a clear flag. -/
theorem finalizeTimeStep_spec (self : LinearElasticity α n) :
    (finalizeTimeStep self = none ↔ self.init = false)
    ∧ (∀ self', finalizeTimeStep self = some self' → self'.init = false) := by
  unfold finalizeTimeStep
  cases h : self.init
  · simp
  · simp only [not_true_eq_false, if_false]
    refine ⟨by simp, ?_⟩
    intro self' h'
    rw [Option.some.injEq] at h'
    rw [← h']

/-- A sequence of calls that does not fail alternates, and which call comes first
is fixed by the flag at the start. -/
theorem run_calls_alternate (calls : List StepCall) :
    ∀ self : LinearElasticity α n, (run_calls calls self).isSome = true →
      ∀ (i : Nat) (h : i < calls.length),
        calls.get ⟨i, h⟩ =
          if (i % 2 = 0 ↔ self.init = false) then StepCall.initTimeStep
          else StepCall.finalizeTimeStep := by
  induction calls with
  | nil => intro self _ i h; simp at h
  | cons call calls ih =>
    intro self hs i h
    unfold run_calls at hs
    cases hc : apply_call call self with
    | none => rw [hc] at hs; simp at hs
    | some self1 =>
      rw [hc] at hs
      simp only at hs
      have hflip : self1.init = !self.init ∧
          call = (if self.init = false then StepCall.initTimeStep
            else StepCall.finalizeTimeStep) := by
        cases call with
        | initTimeStep =>
          simp only [apply_call] at hc
          have h0 : self.init = false := by
            cases hi : self.init with
            | false => rfl
            | true => rw [((initTimeStep_spec self).1).2 hi] at hc; simp at hc
          rw [(initTimeStep_spec self).2 h0, Option.some.injEq] at hc
          rw [← hc, h0]; simp
        | finalizeTimeStep =>
          simp only [apply_call] at hc
          have h1 : self.init = true := by
            cases hi : self.init with
            | true => rfl
            | false => rw [((finalizeTimeStep_spec self).1).2 hi] at hc; simp at hc
          rw [h1, (finalizeTimeStep_spec self).2 self1 hc]; simp
      cases i with
      | zero =>
        simp only [List.get_eq_getElem, List.getElem_cons_zero]
        rw [hflip.2]; simp
      | succ k =>
        have hk : k < calls.length := by simpa using h
        have := ih self1 hs k hk
        simp only [List.get_eq_getElem, List.getElem_cons_succ] at this ⊢
        rw [this, hflip.1]
        have hmod : ((k + 1) % 2 = 0) ↔ ¬ (k % 2 = 0) := by omega
        cases hi : self.init <;> simp [hmod]

/-- C6: a constructed object has `init = false`; `initTimeStep` fails exactly when
`init` is true and otherwise sets it; `finalizeTimeStep` fails exactly when `init`
is false and otherwise clears it; so a sequence of these calls on a constructed
object in which no call fails has `initTimeStep` at the even positions and
`finalizeTimeStep` at the odd ones. -/
theorem step_api_two_state_machine :
    (∀ (raw self : LinearElasticity α n) (time_step theta degree gravity distributed_load rho : α)
        (n_global_refines : Nat),
        LinearElasticity.new raw time_step theta degree gravity distributed_load rho
          n_global_refines = some self → self.init = false)
    ∧ (∀ self : LinearElasticity α n, initTimeStep self = none ↔ self.init = true)
    ∧ (∀ self self' : LinearElasticity α n, initTimeStep self = some self' → self'.init = true)
    ∧ (∀ self : LinearElasticity α n, finalizeTimeStep self = none ↔ self.init = false)
    ∧ (∀ self self' : LinearElasticity α n,
        finalizeTimeStep self = some self' → self'.init = false)
    ∧ (∀ (raw self : LinearElasticity α n) (time_step theta degree gravity distributed_load rho : α)
        (n_global_refines : Nat) (calls : List StepCall),
        LinearElasticity.new raw time_step theta degree gravity distributed_load rho
          n_global_refines = some self →
        (run_calls calls self).isSome = true →
        ∀ (i : Nat) (h : i < calls.length),
          calls.get ⟨i, h⟩ =
            if i % 2 = 0 then StepCall.initTimeStep else StepCall.finalizeTimeStep) := by
  have fresh : ∀ (raw self : LinearElasticity α n)
      (time_step theta degree gravity distributed_load rho : α) (n_global_refines : Nat),
      LinearElasticity.new raw time_step theta degree gravity distributed_load rho
        n_global_refines = some self → self.init = false := by
    intro raw self time_step theta degree gravity distributed_load rho n_global_refines h
    unfold LinearElasticity.new at h
    simp only at h
    split_ifs at h
    rw [Option.some.injEq] at h
    rw [← h]
  refine ⟨fresh, fun self => (initTimeStep_spec self).1, ?_,
    fun self => (finalizeTimeStep_spec self).1, fun self => (finalizeTimeStep_spec self).2, ?_⟩
  · intro self self' h
    cases hi : self.init with
    | true => rw [((initTimeStep_spec self).1).2 hi] at h; simp at h
    | false =>
      rw [(initTimeStep_spec self).2 hi, Option.some.injEq] at h
      rw [← h]
  · intro raw self time_step theta degree gravity distributed_load rho n_global_refines calls
      hnew hs i h
    have h0 := fresh raw self time_step theta degree gravity distributed_load rho
      n_global_refines hnew
    rw [run_calls_alternate calls self hs i h]
    simp [h0]

/-- C3: over the reals, with `std::cos` the real cosine and `M_PI` the real π,
`get_traction` is the reference ramp with `offset = 0.01` and `T = 0.01` for
component 1 and zero for every other component; the second argument has no
influence. -/
theorem get_traction_eq_reference (self : LinearElasticity ℝ n) (component_i dof : Nat) :
    (component_i = 1 → self.time ≥ 0.01 + 0.01 →
        get_traction ⟨Real.cos, Real.pi⟩ self component_i dof = self.distributed_load)
    ∧ (component_i = 1 → 0.01 ≤ self.time → self.time < 0.01 + 0.01 →
        get_traction ⟨Real.cos, Real.pi⟩ self component_i dof
          = self.distributed_load
              * (0.5 * (1 - Real.cos (Real.pi * (self.time - 0.01) / 0.01))))
    ∧ (component_i = 1 → self.time < 0.01 →
        get_traction ⟨Real.cos, Real.pi⟩ self component_i dof = 0)
    ∧ (component_i ≠ 1 → get_traction ⟨Real.cos, Real.pi⟩ self component_i dof = 0)
    ∧ get_traction ⟨Real.cos, Real.pi⟩ self component_i dof
        = (if component_i = 1 then
            traction_reference ⟨Real.cos, Real.pi⟩ self.distributed_load 0.01 0.01 self.time
          else 0)
    ∧ (∀ dof' : Nat, get_traction ⟨Real.cos, Real.pi⟩ self component_i dof'
        = get_traction ⟨Real.cos, Real.pi⟩ self component_i dof) := by
  refine ⟨?_, ?_, ?_, ?_, ?_, fun _ => rfl⟩
  · intro hc ht
    have h1 : ¬ (self.time - 0.01 < 0.01) := by linarith
    have h2 : ¬ (self.time < 0.01) := by
      intro h; norm_num at ht; linarith
    simp only [get_traction, hc, if_true, h1, h2, if_false]
  · intro hc h0 ht
    have h1 : self.time - 0.01 < 0.01 := by linarith
    have h2 : ¬ (self.time < 0.01) := not_lt.mpr h0
    simp only [get_traction, hc, if_true, h1, h2, if_false]
    ring
  · intro hc ht
    simp only [get_traction, hc, if_true, ht]
    norm_num
  · intro hc
    simp only [get_traction, hc, if_false]
    norm_num
  · unfold get_traction traction_reference
    by_cases hc : component_i = 1
    · simp only [hc, if_true]
      by_cases ht : self.time < 0.01
      · have h1 : ¬ (self.time ≥ 0.01 + 0.01) := by
          intro h; norm_num at h; linarith
        have h2 : ¬ ((0.01 : ℝ) ≤ self.time) := not_le.mpr ht
        simp only [ht, if_true, h1, h2, if_false]
        norm_num
      · have h2 : (0.01 : ℝ) ≤ self.time := not_lt.mp ht
        by_cases h3 : self.time - 0.01 < 0.01
        · have h1 : ¬ (self.time ≥ 0.01 + 0.01) := by
            intro h; linarith
          simp only [ht, h3, if_true, h1, h2, if_false]
          ring
        · have h1 : self.time ≥ 0.01 + 0.01 := by
            have := not_lt.mp h3; linarith
          simp only [ht, h3, h1, if_true, if_false]
    · simp only [hc, if_false]
      norm_num

/-- Over the reals the traction of component 1 is the target magnitude times a
cosine of the clamped ramp coordinate. -/
theorem get_traction_clamp (self : LinearElasticity ℝ n) (dof : Nat) (t : ℝ) :
    get_traction ⟨Real.cos, Real.pi⟩ { self with time := t } 1 dof
      = self.distributed_load
          * (1 / 2 - 1 / 2 * Real.cos (Real.pi * max 0 (min 1 ((t - 0.01) / 0.01)))) := by
  simp only [get_traction, if_true]
  by_cases ht : t < 0.01
  · have hx : (t - 0.01) / 0.01 ≤ 0 := by
      apply div_nonpos_of_nonpos_of_nonneg
      · linarith
      · norm_num
    have hmin : min 1 ((t - 0.01) / 0.01) = (t - 0.01) / 0.01 := min_eq_right (by linarith)
    rw [hmin, max_eq_left hx]
    simp only [ht, if_true]
    norm_num
  · have h0 : (0.01 : ℝ) ≤ t := not_lt.mp ht
    have hx0 : 0 ≤ (t - 0.01) / 0.01 :=
      div_nonneg (by linarith) (by norm_num)
    by_cases h3 : t - 0.01 < 0.01
    · have hx1 : (t - 0.01) / 0.01 ≤ 1 := by
        rw [div_le_one (by norm_num)]; linarith
      rw [min_eq_right hx1, max_eq_right hx0]
      simp only [ht, h3, if_true, if_false]
      rw [mul_div_assoc]
      norm_num
    · have hx1 : 1 ≤ (t - 0.01) / 0.01 := by
        rw [one_le_div (by norm_num)]; linarith
      rw [min_eq_left hx1, max_eq_right (by norm_num : (0:ℝ) ≤ 1)]
      simp only [ht, h3, if_false]
      norm_num

/-- The clamped cosine ramp is non-decreasing. -/
theorem ramp_monotone :
    Monotone fun t : ℝ =>
      (1 / 2 - 1 / 2 * Real.cos (Real.pi * max 0 (min 1 ((t - 0.01) / 0.01))) : ℝ) := by
  intro a b hab
  have hclamp : max 0 (min 1 ((a - 0.01) / 0.01)) ≤ max 0 (min 1 ((b - 0.01) / 0.01)) := by
    apply max_le_max le_rfl
    apply min_le_min le_rfl
    apply div_le_div_of_nonneg_right _ (by norm_num)
    linarith
  have ha0 : (0:ℝ) ≤ max 0 (min 1 ((a - 0.01) / 0.01)) := le_max_left _ _
  have hb1 : max 0 (min 1 ((b - 0.01) / 0.01)) ≤ (1:ℝ) :=
    max_le (by norm_num) (min_le_left _ _)
  have hcos : Real.cos (Real.pi * max 0 (min 1 ((b - 0.01) / 0.01)))
      ≤ Real.cos (Real.pi * max 0 (min 1 ((a - 0.01) / 0.01))) := by
    apply Real.cos_le_cos_of_nonneg_of_le_pi
    · exact mul_nonneg Real.pi_pos.le ha0
    · calc Real.pi * max 0 (min 1 ((b - 0.01) / 0.01)) ≤ Real.pi * 1 :=
          mul_le_mul_of_nonneg_left hb1 Real.pi_pos.le
        _ = Real.pi := mul_one _
    · exact mul_le_mul_of_nonneg_left hclamp Real.pi_pos.le
  show (1 / 2 - 1 / 2 * Real.cos _ : ℝ) ≤ 1 / 2 - 1 / 2 * Real.cos _
  linarith

/-- C4: for the loaded component the traction as a function of the time is
non-decreasing when `distributed_load ≥ 0`, non-increasing when
`distributed_load ≤ 0`, continuous on the whole real line, zero at `t = 0` and
equal to `distributed_load` at `t = offset + T`. -/
theorem traction_monotone_continuous (self : LinearElasticity ℝ n) (dof : Nat) :
    (0 ≤ self.distributed_load →
        Monotone fun t : ℝ => get_traction ⟨Real.cos, Real.pi⟩ { self with time := t } 1 dof)
    ∧ (self.distributed_load ≤ 0 →
        Antitone fun t : ℝ => get_traction ⟨Real.cos, Real.pi⟩ { self with time := t } 1 dof)
    ∧ (Continuous fun t : ℝ => get_traction ⟨Real.cos, Real.pi⟩ { self with time := t } 1 dof)
    ∧ get_traction ⟨Real.cos, Real.pi⟩ { self with time := 0 } 1 dof = 0
    ∧ get_traction ⟨Real.cos, Real.pi⟩ { self with time := 0.01 + 0.01 } 1 dof
        = self.distributed_load := by
  have hfun : (fun t : ℝ => get_traction ⟨Real.cos, Real.pi⟩ { self with time := t } 1 dof)
      = fun t : ℝ => self.distributed_load
          * (1 / 2 - 1 / 2 * Real.cos (Real.pi * max 0 (min 1 ((t - 0.01) / 0.01)))) :=
    funext fun t => get_traction_clamp self dof t
  refine ⟨?_, ?_, ?_, ?_, ?_⟩
  · intro h a b hab
    simp only [get_traction_clamp]
    exact mul_le_mul_of_nonneg_left (ramp_monotone hab) h
  · intro h a b hab
    simp only [get_traction_clamp]
    exact mul_le_mul_of_nonpos_left (ramp_monotone hab) h
  · rw [hfun]
    fun_prop
  · rw [get_traction_clamp]
    have : max (0:ℝ) (min 1 ((0 - 0.01) / 0.01)) = 0 := by norm_num
    rw [this]; simp
  · rw [get_traction_clamp]
    have : max (0:ℝ) (min 1 ((0.01 + 0.01 - 0.01) / 0.01)) = 1 := by norm_num
    rw [this]; norm_num

/-- Swapping the two local indices leaves an entry of `cell_matrix` unchanged. -/
theorem cell_matrix_swap (env : Collaborators α n)
    (lambda_values mu_values : Fin env.n_q_points → α)
    (cell : Cell α n env.dim env.dofs_per_cell env.n_q_points env.n_face_q_points)
    (i j : Fin env.dofs_per_cell) :
    cell_matrix env lambda_values mu_values cell i j
      = cell_matrix env lambda_values mu_values cell j i := by
  unfold cell_matrix
  apply Finset.sum_congr rfl
  intro q_point _
  by_cases hc : env.system_to_component_index i = env.system_to_component_index j
  · have hsum : (∑ d : Fin env.dim, cell.shape_grad i q_point d * cell.shape_grad j q_point d)
        = ∑ d : Fin env.dim, cell.shape_grad j q_point d * cell.shape_grad i q_point d :=
      Finset.sum_congr rfl fun d _ => mul_comm _ _
    simp only [hc, if_true, hsum]
    ring
  · have hc' : ¬ env.system_to_component_index j = env.system_to_component_index i :=
      fun h => hc h.symm
    simp only [hc, hc', if_false]
    ring

/-- C8: every entry of `cell_matrix` is the sum over the quadrature points of
`λ ∂_{c_i}φ_i ∂_{c_j}φ_j + μ ∂_{c_j}φ_i ∂_{c_i}φ_j + (c_i = c_j ? μ ∇φ_i·∇φ_j : 0)`
times `JxW`, it is unchanged when `i` and `j` are swapped, and the matrix the
scatter builds from the cells, before `constraints.condense`, is symmetric, for
arbitrary shape gradients, coefficient values and weights. -/
theorem stiffness_symmetric (env : Collaborators α n)
    (lambda_values mu_values : Fin env.n_q_points → α) :
    (∀ (cell : Cell α n env.dim env.dofs_per_cell env.n_q_points env.n_face_q_points)
        (i j : Fin env.dofs_per_cell),
        cell_matrix env lambda_values mu_values cell i j
          = ∑ q : Fin env.n_q_points,
              (lambda_values q
                  * cell.shape_grad i q (env.system_to_component_index i)
                  * cell.shape_grad j q (env.system_to_component_index j)
                + mu_values q
                  * cell.shape_grad i q (env.system_to_component_index j)
                  * cell.shape_grad j q (env.system_to_component_index i)
                + (if env.system_to_component_index i = env.system_to_component_index j then
                    mu_values q * ∑ d : Fin env.dim, cell.shape_grad i q d * cell.shape_grad j q d
                  else 0))
              * cell.JxW q)
    ∧ (∀ (cell : Cell α n env.dim env.dofs_per_cell env.n_q_points env.n_face_q_points)
        (i j : Fin env.dofs_per_cell),
        cell_matrix env lambda_values mu_values cell i j
          = cell_matrix env lambda_values mu_values cell j i)
    ∧ (∀ I J : Fin n,
        scatter_cell_matrices env lambda_values mu_values I J
          = scatter_cell_matrices env lambda_values mu_values J I)
    ∧ (∀ self : LinearElasticity α n,
        (assemble_system env self).laplace_matrix
          = env.condense (scatter_cell_matrices env (fun _ => lambda_s) (fun _ => mu_s)))
    ∧ (scatter_cell_matrices env (fun _ => lambda_s) (fun _ => mu_s)).IsSymm := by
  have hscatter : ∀ (lv mv : Fin env.n_q_points → α) (I J : Fin n),
      scatter_cell_matrices env lv mv I J = scatter_cell_matrices env lv mv J I := by
    intro lv mv I J
    simp only [scatter_cell_matrices, Matrix.of_apply]
    congr 1
    apply List.map_congr_left
    intro cell _
    rw [Finset.sum_comm]
    apply Finset.sum_congr rfl
    intro j _
    apply Finset.sum_congr rfl
    intro i _
    rw [cell_matrix_swap env lv mv cell i j]
    by_cases h : cell.local_dof_indices j = J ∧ cell.local_dof_indices i = I
    · rw [if_pos h, if_pos ⟨h.2, h.1⟩]
    · rw [if_neg h, if_neg fun h' => h ⟨h'.2, h'.1⟩]
  refine ⟨?_, cell_matrix_swap env lambda_values mu_values, hscatter lambda_values mu_values,
    fun _ => rfl, Matrix.IsSymm.ext fun I J => hscatter _ _ J I⟩
  · intro cell i j
    unfold cell_matrix
    apply Finset.sum_congr rfl
    intro q _
    congr 1
    by_cases hc : env.system_to_component_index i = env.system_to_component_index j
    · simp only [hc, if_true]; ring
    · simp only [hc, if_false]; ring

/-- The local `forcing_terms` of `solve` is the forcing contribution of the
specification. -/
theorem solve_forcing_terms (env : Collaborators α n) (self : LinearElasticity α n) :
    (solve_displacement_rhs env self).2 = forcing_terms_spec env self := by
  funext i
  simp only [solve_displacement_rhs, forcing_terms_spec, forcing, assemble_system,
    Pi.add_apply, Pi.smul_apply, smul_eq_mul]
  norm_num
  ring

/-- The right-hand side `solve` builds for the displacement system. -/
theorem solve_displacement_rhs_system_rhs (env : Collaborators α n)
    (self : LinearElasticity α n) :
    (solve_displacement_rhs env self).1.system_rhs
      = self.mass_matrix *ᵥ self.old_solution_u
        + self.time_step • (self.mass_matrix *ᵥ self.old_solution_v)
        - (self.theta * (1 - self.theta) * self.time_step ^ 2 / self.rho) •
            ((assemble_system env self).laplace_matrix *ᵥ self.old_solution_u)
        + (self.theta * self.time_step) • forcing_terms_spec env self := by
  rw [← solve_forcing_terms]
  funext i
  simp only [solve_displacement_rhs, assemble_system,
    Pi.add_apply, Pi.sub_apply, Pi.smul_apply, smul_eq_mul]
  ring

/-- The forcing contribution of the example object, at the loaded component. -/
theorem example_forcing_terms :
    forcing_terms_spec example_env example_object 1 = -(1 / 50000) := by
  simp [forcing_terms_spec, forcing, assemble_system, scatter_cell_rhs, cell_rhs, get_traction,
    example_env, example_object, example_cell, example_face]
  norm_num

/-- C1, counterexample: for the example object (`theta = 1/2`,
`time_step = 1/100`, `rho = 1000`, gravity load `-2` on component 1, nothing
else non-zero) the right-hand side `solve` hands to the boundary elimination has
`-1/10000000` at component 1, the specification's formula gives `-1/50000`, and
so the two vectors differ. -/
theorem displacement_rhs_spec_fails :
    (solve_displacement_rhs example_env example_object).1.system_rhs 1 = -(1 / 10000000)
    ∧ displacement_rhs_spec example_env example_object 1 = -(1 / 50000)
    ∧ (solve_displacement_rhs example_env example_object).1.system_rhs
      ≠ displacement_rhs_spec example_env example_object := by
  have hcode : (solve_displacement_rhs example_env example_object).1.system_rhs 1
      = -(1 / 10000000) := by
    rw [solve_displacement_rhs_system_rhs]
    simp only [Pi.add_apply, Pi.sub_apply, Pi.smul_apply, example_forcing_terms]
    simp [example_object]
    norm_num
  have hspec : displacement_rhs_spec example_env example_object 1 = -(1 / 50000) := by
    unfold displacement_rhs_spec
    simp only [Pi.add_apply, Pi.sub_apply, Pi.smul_apply, example_forcing_terms]
    simp [example_object]
  refine ⟨hcode, hspec, fun h => ?_⟩
  rw [h, hspec] at hcode
  norm_num at hcode

/-- C1, amended: the right-hand side `solve` hands to the first boundary
elimination is `M·u_old + Δt·M·v_old − θ(1−θ)Δt²/ρ·K·u_old +
θΔt·[θΔt·forcing(t) + (1−θ)Δt·forcing(t−Δt)]`, and the displacement `solve`
leaves is the direct solve of the eliminated system with operator
`M + θ²Δt²/ρ·K` and that right-hand side. -/
theorem displacement_rhs_amended (env : Collaborators α n) (self : LinearElasticity α n) :
    (solve_displacement_rhs env self).1.system_rhs
      = self.mass_matrix *ᵥ self.old_solution_u
        + self.time_step • (self.mass_matrix *ᵥ self.old_solution_v)
        - (self.theta * (1 - self.theta) * self.time_step ^ 2 / self.rho) •
            ((assemble_system env self).laplace_matrix *ᵥ self.old_solution_u)
        + (self.theta * self.time_step) •
            ((self.theta * self.time_step) •
                forcing self.rho (assemble_system env self).body_force
                  (env.create_right_hand_side self.gravity self.time)
              + ((1 - self.theta) * self.time_step) •
                forcing self.rho self.old_body_force
                  (env.create_right_hand_side self.gravity (self.time - self.time_step)))
    ∧ (solve env self).solution_u
      = env.direct_solve
          (env.apply_boundary_values
            (self.mass_matrix
              + (self.theta * self.theta * self.time_step * self.time_step / self.rho) •
                (assemble_system env self).laplace_matrix)
            self.solution_u (solve_displacement_rhs env self).1.system_rhs).1
          (env.apply_boundary_values
            (self.mass_matrix
              + (self.theta * self.theta * self.time_step * self.time_step / self.rho) •
                (assemble_system env self).laplace_matrix)
            self.solution_u (solve_displacement_rhs env self).1.system_rhs).2.2 :=
  ⟨solve_displacement_rhs_system_rhs env self, rfl⟩

/-- The right-hand side `solve` builds for the velocity system. -/
theorem solve_velocity_rhs_system_rhs (env : Collaborators α n) (self : LinearElasticity α n)
    (u_new : Vector α n) :
    (solve_velocity_rhs { (solve_displacement_rhs env self).1 with solution_u := u_new }
        (solve_displacement_rhs env self).2).system_rhs
      = velocity_rhs_spec env self u_new := by
  rw [solve_forcing_terms]
  funext i
  simp only [solve_velocity_rhs, velocity_rhs_spec, solve_displacement_rhs, assemble_system,
    Pi.add_apply, Pi.sub_apply, Pi.neg_apply, Pi.smul_apply, smul_eq_mul]
  ring

/-- C2: the right-hand side `solve` hands to the second boundary elimination is
`−θΔt/ρ·K·u_new + M·v_old − (1−θ)Δt/ρ·K·u_old + forcing_terms` with `u_new` the
displacement of the first solve and `forcing_terms = θΔt·forcing(t) +
(1−θ)Δt·forcing(t−Δt)`; the operator handed over with it is the mass matrix, and
the velocity `solve` leaves is the direct solve of that eliminated system. -/
theorem velocity_system (env : Collaborators α n) (self : LinearElasticity α n) :
    (solve_velocity_rhs (solve_displacement_system env (solve_displacement_rhs env self).1)
        (solve_displacement_rhs env self).2).system_rhs
      = -((self.theta * self.time_step / self.rho) •
            ((assemble_system env self).laplace_matrix *ᵥ (solve env self).solution_u))
        + self.mass_matrix *ᵥ self.old_solution_v
        - ((1 - self.theta) * self.time_step / self.rho) •
            ((assemble_system env self).laplace_matrix *ᵥ self.old_solution_u)
        + ((self.theta * self.time_step) •
              forcing self.rho (assemble_system env self).body_force
                (env.create_right_hand_side self.gravity self.time)
            + ((1 - self.theta) * self.time_step) •
              forcing self.rho self.old_body_force
                (env.create_right_hand_side self.gravity (self.time - self.time_step)))
    ∧ (solve_displacement_rhs env self).2
      = (self.theta * self.time_step) •
            forcing self.rho (assemble_system env self).body_force
              (env.create_right_hand_side self.gravity self.time)
          + ((1 - self.theta) * self.time_step) •
            forcing self.rho self.old_body_force
              (env.create_right_hand_side self.gravity (self.time - self.time_step))
    ∧ (solve env self).matrix_v
      = (env.apply_boundary_values self.mass_matrix self.solution_v
          (solve_velocity_rhs (solve_displacement_system env (solve_displacement_rhs env self).1)
            (solve_displacement_rhs env self).2).system_rhs).1
    ∧ (solve env self).solution_v
      = env.direct_solve
          (env.apply_boundary_values self.mass_matrix self.solution_v
            (solve_velocity_rhs (solve_displacement_system env (solve_displacement_rhs env self).1)
              (solve_displacement_rhs env self).2).system_rhs).1
          (env.apply_boundary_values self.mass_matrix self.solution_v
            (solve_velocity_rhs (solve_displacement_system env (solve_displacement_rhs env self).1)
              (solve_displacement_rhs env self).2).system_rhs).2.2 := by
  refine ⟨?_, solve_forcing_terms env self, rfl, rfl⟩
  exact solve_velocity_rhs_system_rhs env self (solve env self).solution_u

/-- C10: if `u_new` solves `(M + θ²Δt²/ρ·K)·u_new = rhs_u` and `v_new` solves
`M·v_new = rhs_v`, with both right-hand sides as `solve` builds them and no
boundary elimination, then `(u_new, v_new)` is one step of the coupled θ-method:
`M·u_new = M·u_old + Δt·M·(θ·v_new + (1−θ)·v_old)` and
`M·v_new = M·v_old − Δt/ρ·K·(θ·u_new + (1−θ)·u_old) + Δt/ρ·(θ·f(t) + (1−θ)·f(t−Δt))`
with `f(t) = body_force + gravity_load(t)`,
`f(t−Δt) = old_body_force + gravity_load(t−Δt)`. -/
theorem sequential_solves_are_theta_step (env : Collaborators α n)
    (self : LinearElasticity α n) (u_new v_new : Vector α n)
    (hu : (self.mass_matrix
            + (self.theta ^ 2 * self.time_step ^ 2 / self.rho) •
              (assemble_system env self).laplace_matrix) *ᵥ u_new
          = (solve_displacement_rhs env self).1.system_rhs)
    (hv : self.mass_matrix *ᵥ v_new
          = (solve_velocity_rhs { (solve_displacement_rhs env self).1 with solution_u := u_new }
              (solve_displacement_rhs env self).2).system_rhs) :
    self.mass_matrix *ᵥ u_new
      = self.mass_matrix *ᵥ self.old_solution_u
        + self.time_step •
          (self.mass_matrix *ᵥ (self.theta • v_new + (1 - self.theta) • self.old_solution_v))
    ∧ self.mass_matrix *ᵥ v_new
      = self.mass_matrix *ᵥ self.old_solution_v
        - (self.time_step / self.rho) •
          ((assemble_system env self).laplace_matrix *ᵥ
            (self.theta • u_new + (1 - self.theta) • self.old_solution_u))
        + (self.time_step / self.rho) •
          (self.theta •
              ((assemble_system env self).body_force
                + env.create_right_hand_side self.gravity self.time)
            + (1 - self.theta) •
              (self.old_body_force
                + env.create_right_hand_side self.gravity (self.time - self.time_step))) := by
  rw [solve_displacement_rhs_system_rhs] at hu
  rw [solve_velocity_rhs_system_rhs] at hv
  have hv' : ∀ i, (self.mass_matrix *ᵥ v_new) i = velocity_rhs_spec env self u_new i :=
    fun i => congrFun hv i
  constructor
  · funext i
    have hui := congrFun hu i
    have hvi := hv' i
    simp only [Matrix.add_mulVec, Matrix.smul_mulVec_assoc, Matrix.mulVec_add,
      Matrix.mulVec_smul, velocity_rhs_spec, forcing_terms_spec, forcing,
      Pi.add_apply, Pi.sub_apply, Pi.neg_apply, Pi.smul_apply, smul_eq_mul] at hui hvi ⊢
    linear_combination hui - self.theta * self.time_step * hvi
  · funext i
    have hvi := hv' i
    simp only [Matrix.add_mulVec, Matrix.smul_mulVec_assoc, Matrix.mulVec_add,
      Matrix.mulVec_smul, velocity_rhs_spec, forcing_terms_spec, forcing,
      Pi.add_apply, Pi.sub_apply, Pi.neg_apply, Pi.smul_apply, smul_eq_mul] at hvi ⊢
    linear_combination hvi

/-- What `finalizeTimeStep` returns when the flag is set. -/
theorem finalizeTimeStep_of_init (self : LinearElasticity α n) (h : self.init = true) :
    finalizeTimeStep self
      = some { self with
          old_solution_u := self.solution_u
          old_solution_v := self.solution_v
          old_body_force := self.body_force
          timestep_number := self.timestep_number + 1
          time := self.initial_time + ((self.timestep_number + 1 : Nat) : α) * self.time_step
          init := false } := by
  unfold finalizeTimeStep
  simp [h]

/-- One pass through the loop body from a clear flag. -/
theorem loop_body_of_not_init (env : Collaborators α n) (self : LinearElasticity α n)
    (h : self.init = false) :
    ∃ s : LinearElasticity α n,
      initTimeStep self = some { self with init := true }
      ∧ finalizeTimeStep (solve env { self with init := true }) = some s
      ∧ s.init = false
      ∧ s.mass_matrix = self.mass_matrix
      ∧ s.time_step = self.time_step
      ∧ s.initial_time = self.initial_time
      ∧ s.timestep_number = self.timestep_number + 1
      ∧ s.time = self.initial_time + ((self.timestep_number + 1 : Nat) : α) * self.time_step :=
  ⟨_, (initTimeStep_spec self).2 h, finalizeTimeStep_of_init _ rfl,
    rfl, rfl, rfl, rfl, rfl, rfl⟩

/-- Any number of time steps from a clear flag succeeds and ends with a clear flag. -/
theorem time_steps_of_not_init (env : Collaborators α n) (N : Nat) :
    ∀ self : LinearElasticity α n, self.init = false →
      ∃ s, time_steps env N self = some s ∧ s.init = false := by
  induction N with
  | zero => intro self h; exact ⟨self, rfl, h⟩
  | succ N ih =>
    intro self h
    obtain ⟨s1, h1, h2, h3, -⟩ := loop_body_of_not_init env self h
    obtain ⟨s, hs, hs1⟩ := ih s1 h3
    refine ⟨s, ?_, hs1⟩
    simp only [time_steps, h1, h2]
    exact hs

/-- Time steps that succeed keep the mass matrix. -/
theorem time_steps_mass_matrix (env : Collaborators α n) (N : Nat) :
    ∀ self s : LinearElasticity α n, time_steps env N self = some s →
      s.mass_matrix = self.mass_matrix := by
  induction N with
  | zero =>
    intro self s h
    simp only [time_steps, Option.some.injEq] at h
    rw [← h]
  | succ N ih =>
    intro self s h
    cases hi : self.init with
    | true =>
      simp only [time_steps, ((initTimeStep_spec self).1).2 hi] at h
      exact absurd h (by simp)
    | false =>
      obtain ⟨s1, h1, h2, -, h4, -⟩ := loop_body_of_not_init env self hi
      simp only [time_steps, h1, h2] at h
      exact (ih s1 s h).trans h4

/-- What `solve` does not write. -/
theorem solve_preserves (env : Collaborators α n) (self : LinearElasticity α n) :
    (solve env self).mass_matrix = self.mass_matrix
      ∧ (solve env self).old_solution_u = self.old_solution_u
      ∧ (solve env self).old_solution_v = self.old_solution_v
      ∧ (solve env self).old_body_force = self.old_body_force
      ∧ (solve env self).time = self.time
      ∧ (solve env self).timestep_number = self.timestep_number
      ∧ (solve env self).init = self.init
      ∧ (solve env self).time_step = self.time_step
      ∧ (solve env self).initial_time = self.initial_time := by
  simp only [solve, solve_velocity_system, solve_v, solve_velocity_rhs,
    solve_displacement_system, solve_u, solve_displacement_rhs, assemble_system, and_self]

/-- C9: `solve` leaves `mass_matrix`, `old_solution_u`, `old_solution_v`,
`old_body_force`, `time`, `timestep_number` and `init` as they were, and so does
`initTimeStep` apart from the flag; `finalizeTimeStep` copies `solution_u`,
`solution_v` and `body_force` into the `old_` members and advances
`timestep_number` and `time`; the mass matrix after any number of time steps is
the one before them. -/
theorem solve_frame (env : Collaborators α n) (self : LinearElasticity α n) :
    ((solve env self).mass_matrix = self.mass_matrix
      ∧ (solve env self).old_solution_u = self.old_solution_u
      ∧ (solve env self).old_solution_v = self.old_solution_v
      ∧ (solve env self).old_body_force = self.old_body_force
      ∧ (solve env self).time = self.time
      ∧ (solve env self).timestep_number = self.timestep_number
      ∧ (solve env self).init = self.init)
    ∧ (∀ s : LinearElasticity α n, initTimeStep self = some s →
        s.mass_matrix = self.mass_matrix
        ∧ s.old_solution_u = self.old_solution_u
        ∧ s.old_solution_v = self.old_solution_v
        ∧ s.old_body_force = self.old_body_force
        ∧ s.time = self.time
        ∧ s.timestep_number = self.timestep_number)
    ∧ (∀ s : LinearElasticity α n, finalizeTimeStep self = some s →
        s.mass_matrix = self.mass_matrix
        ∧ s.old_solution_u = self.solution_u
        ∧ s.old_solution_v = self.solution_v
        ∧ s.old_body_force = self.body_force
        ∧ s.timestep_number = self.timestep_number + 1
        ∧ s.time = self.initial_time + ((self.timestep_number + 1 : Nat) : α) * self.time_step)
    ∧ (∀ (N : Nat) (s : LinearElasticity α n),
        time_steps env N self = some s → s.mass_matrix = self.mass_matrix)
    ∧ (self.init = false → ∀ N : Nat, (time_steps env N self).isSome = true) := by
  obtain ⟨p1, p2, p3, p4, p5, p6, p7, -, -⟩ := solve_preserves env self
  refine ⟨⟨p1, p2, p3, p4, p5, p6, p7⟩, ?_, ?_, ?_, ?_⟩
  · intro s hs
    cases hi : self.init with
    | true => rw [((initTimeStep_spec self).1).2 hi] at hs; simp at hs
    | false =>
      rw [(initTimeStep_spec self).2 hi, Option.some.injEq] at hs
      rw [← hs]
      exact ⟨rfl, rfl, rfl, rfl, rfl, rfl⟩
  · intro s hs
    cases hi : self.init with
    | false => rw [((finalizeTimeStep_spec self).1).2 hi] at hs; simp at hs
    | true =>
      rw [finalizeTimeStep_of_init self hi, Option.some.injEq] at hs
      rw [← hs]
      exact ⟨rfl, rfl, rfl, rfl, rfl, rfl⟩
  · intro N s hs
    exact time_steps_mass_matrix env N self s hs
  · intro hi N
    obtain ⟨s1, h1, -⟩ := time_steps_of_not_init env N self hi
    rw [h1]; rfl

/-- Member `isRunning` on an object whose time is `timestep_number * time_step`, with
`initial_time = 0`: the loop goes on exactly while the counter is at most
`⌊0.05 / time_step⌋`. -/
theorem isRunning_iff [FloorSemiring α] (self : LinearElasticity α n)
    (hdt : 0 < self.time_step)
    (htime : self.time = (self.timestep_number : α) * self.time_step) :
    isRunning self = true ↔ self.timestep_number ≤ ⌊(0.05 : α) / self.time_step⌋₊ := by
  have hq : (0 : α) ≤ 0.05 / self.time_step := div_nonneg (by norm_num) hdt.le
  simp only [isRunning, decide_eq_true_eq, htime]
  rw [Nat.le_floor_iff hq, le_div_iff₀ hdt]

/-- The loop of `run` from a counter `k ≤ ⌊0.05 / time_step⌋ + 1`: with enough
fuel it ends with the counter at `⌊0.05 / time_step⌋ + 1`, having made
`⌊0.05 / time_step⌋ + 1 - k` iterations. -/
theorem run_loop_terminates [FloorSemiring α] (env : Collaborators α n) (dt : α) (hdt : 0 < dt) :
    ∀ (gap fuel : Nat) (self : LinearElasticity α n) (iterations : Nat),
      self.time_step = dt → self.initial_time = 0 → self.init = false →
      self.time = (self.timestep_number : α) * dt →
      self.timestep_number + gap = ⌊(0.05 : α) / dt⌋₊ + 1 →
      gap ≤ fuel →
      ∃ s : LinearElasticity α n,
        run_loop env fuel self iterations = Except.ok (s, iterations + gap)
        ∧ s.timestep_number = ⌊(0.05 : α) / dt⌋₊ + 1
        ∧ s.time_step = dt ∧ s.initial_time = 0 ∧ s.init = false := by
  intro gap
  induction gap with
  | zero =>
    intro fuel self iterations h1 h2 h3 h4 h5 _
    have hrun : ¬ (isRunning self = true) := by
      rw [isRunning_iff self (h1 ▸ hdt) (h1 ▸ h4), h1]
      omega
    refine ⟨self, ?_, by omega, h1, h2, h3⟩
    cases fuel <;> simp [run_loop, hrun]
  | succ gap ih =>
    intro fuel self iterations h1 h2 h3 h4 h5 h6
    have hrun : isRunning self = true := by
      rw [isRunning_iff self (h1 ▸ hdt) (h1 ▸ h4), h1]
      omega
    obtain ⟨fuel, rfl⟩ : ∃ f, fuel = f + 1 := ⟨fuel - 1, by omega⟩
    obtain ⟨s1, b1, b2, b3, -, b5, b6, b7, b8⟩ := loop_body_of_not_init env self h3
    have ht : s1.time = (s1.timestep_number : α) * dt := by
      rw [b8, b7, h2, zero_add, h1]
    obtain ⟨s, hs, r1, r2, r3, r4⟩ :=
      ih fuel s1 (iterations + 1) (b5.trans h1) (b6.trans h2) b3 ht (by omega) (by omega)
    refine ⟨s, ?_, r1, r2, r3, r4⟩
    simp only [run_loop, hrun, if_true, b1, b2]
    rw [hs]
    congr 2
    omega

/-- What `setup_system` does not write. -/
theorem setup_system_frame (env : Collaborators α n) (self : LinearElasticity α n) :
    (setup_system env self).time_step = self.time_step := rfl

/-- C5: for a positive `time_step`, on an object whose step flag is clear, `run`
returns whenever the fuel is at least `⌊0.05 / time_step⌋`; the loop has then
made exactly `⌊0.05 / time_step⌋` iterations, `timestep_number` equals that
number, `time = initial_time + timestep_number * time_step` with
`initial_time = 0`, and `time ≤ 0.05`. -/
theorem run_terminates [FloorSemiring α] (env : Collaborators α n)
    (self : LinearElasticity α n) (hdt : 0 < self.time_step) (hinit : self.init = false)
    (fuel : Nat) (hfuel : ⌊(0.05 : α) / self.time_step⌋₊ ≤ fuel) :
    ∃ s : LinearElasticity α n,
      run env fuel self = Except.ok (s, ⌊(0.05 : α) / self.time_step⌋₊)
      ∧ s.timestep_number = ⌊(0.05 : α) / self.time_step⌋₊
      ∧ s.initial_time = 0
      ∧ s.time = s.initial_time + (s.timestep_number : α) * self.time_step
      ∧ s.time ≤ 0.05
      ∧ s.init = false := by
  obtain ⟨s, hs, r1, r2, r3, r4⟩ :=
    run_loop_terminates env self.time_step hdt ⌊(0.05 : α) / self.time_step⌋₊ fuel
      { setup_system env self with
        initial_time := 0
        timestep_number := 1
        time := (0 : α) + (setup_system env self).time_step } 0
      rfl rfl hinit (by simp [setup_system_frame]) (by simp [Nat.add_comm]) hfuel
  have hq : (0 : α) ≤ 0.05 / self.time_step := div_nonneg (by norm_num) hdt.le
  have hle : ((⌊(0.05 : α) / self.time_step⌋₊ : Nat) : α) * self.time_step ≤ 0.05 := by
    rw [← le_div_iff₀ hdt]
    exact Nat.floor_le hq
  refine ⟨{ s with
      timestep_number := s.timestep_number - 1
      time := s.initial_time + ((s.timestep_number - 1 : Nat) : α) * s.time_step },
    ?_, ?_, r3, ?_, ?_, r4⟩
  · simp only [run, zero_add] at hs ⊢
    rw [hs]
  · simp [r1]
  · simp [r2]
  · simp only [r1, r2, r3, Nat.add_sub_cancel, zero_add]
    exact hle

/-- The stiffness matrix `solve` assembles for the example object. -/
theorem example_laplace_matrix :
    (assemble_system example_env example_object).laplace_matrix
      = !![500000, 400000; 400000, 500000] := by
  have h : ∀ I J : Fin 2, (assemble_system example_env example_object).laplace_matrix I J
      = !![500000, 400000; 400000, 500000] I J := by
    intro I J
    fin_cases I <;> fin_cases J
    · simp [assemble_system, scatter_cell_matrices, cell_matrix, example_env, example_cell,
        lambda_s, mu_s]
      norm_num
    · simp [assemble_system, scatter_cell_matrices, cell_matrix, example_env, example_cell,
        lambda_s, mu_s]
      norm_num
    · simp [assemble_system, scatter_cell_matrices, cell_matrix, example_env, example_cell,
        lambda_s, mu_s]
      norm_num
    · simp [assemble_system, scatter_cell_matrices, cell_matrix, example_env, example_cell,
        lambda_s, mu_s]
      norm_num
  exact Matrix.ext h

/-- The forcing contribution of the example object, at the other component. -/
theorem example_forcing_terms_zero :
    forcing_terms_spec example_env example_object 0 = 0 := by
  simp [forcing_terms_spec, forcing, assemble_system, scatter_cell_rhs, cell_rhs, get_traction,
    example_env, example_object, example_cell, example_face]
  norm_num

/-- The example displacement solves the displacement system of the example object. -/
theorem example_u_new_solves :
    (example_object.mass_matrix
        + (example_object.theta ^ 2 * example_object.time_step ^ 2 / example_object.rho) •
          (assemble_system example_env example_object).laplace_matrix) *ᵥ example_u_new
      = (solve_displacement_rhs example_env example_object).1.system_rhs := by
  rw [solve_displacement_rhs_system_rhs, example_laplace_matrix]
  funext i
  fin_cases i
  · simp only [Fin.zero_eta, Fin.mk_one, Pi.add_apply, Pi.sub_apply, Pi.smul_apply,
      example_forcing_terms_zero]
    simp [example_object, example_u_new, Matrix.mulVec, Matrix.dotProduct, Fin.sum_univ_two]
    norm_num
  · simp only [Fin.zero_eta, Fin.mk_one, Pi.add_apply, Pi.sub_apply, Pi.smul_apply,
      example_forcing_terms]
    simp [example_object, example_u_new, Matrix.mulVec, Matrix.dotProduct, Fin.sum_univ_two]
    norm_num

/-- The example velocity solves the velocity system of the example object. -/
theorem example_v_new_solves :
    example_object.mass_matrix *ᵥ example_v_new
      = (solve_velocity_rhs
          { (solve_displacement_rhs example_env example_object).1 with
            solution_u := example_u_new }
          (solve_displacement_rhs example_env example_object).2).system_rhs := by
  rw [solve_velocity_rhs_system_rhs]
  unfold velocity_rhs_spec
  rw [example_laplace_matrix]
  funext i
  fin_cases i
  · simp only [Fin.zero_eta, Fin.mk_one, Pi.add_apply, Pi.sub_apply, Pi.neg_apply,
      Pi.smul_apply, example_forcing_terms_zero]
    simp [example_object, example_u_new, example_v_new, Matrix.mulVec, Matrix.dotProduct,
      Fin.sum_univ_two]
    norm_num
  · simp only [Fin.zero_eta, Fin.mk_one, Pi.add_apply, Pi.sub_apply, Pi.neg_apply,
      Pi.smul_apply, example_forcing_terms]
    simp [example_object, example_u_new, example_v_new, Matrix.mulVec, Matrix.dotProduct,
      Fin.sum_univ_two]
    norm_num

/-- C10, witness: the example displacement and velocity satisfy both hypotheses,
and the two equations of the coupled step hold for them. -/
theorem sequential_solves_witness :
    example_object.mass_matrix *ᵥ example_u_new
      = example_object.mass_matrix *ᵥ example_object.old_solution_u
        + example_object.time_step •
          (example_object.mass_matrix *ᵥ
            (example_object.theta • example_v_new
              + (1 - example_object.theta) • example_object.old_solution_v))
    ∧ example_object.mass_matrix *ᵥ example_v_new
      = example_object.mass_matrix *ᵥ example_object.old_solution_v
        - (example_object.time_step / example_object.rho) •
          ((assemble_system example_env example_object).laplace_matrix *ᵥ
            (example_object.theta • example_u_new
              + (1 - example_object.theta) • example_object.old_solution_u))
        + (example_object.time_step / example_object.rho) •
          (example_object.theta •
              ((assemble_system example_env example_object).body_force
                + example_env.create_right_hand_side example_object.gravity
                    example_object.time)
            + (1 - example_object.theta) •
              (example_object.old_body_force
                + example_env.create_right_hand_side example_object.gravity
                    (example_object.time - example_object.time_step))) :=
  sequential_solves_are_theta_step example_env example_object example_u_new example_v_new
    example_u_new_solves example_v_new_solves

/-- The number of steps of the example object's run. -/
theorem example_floor : ⌊(0.05 : ℚ) / example_object.time_step⌋₊ = 5 := by
  have h : (0.05 : ℚ) / example_object.time_step = ((5 : Nat) : ℚ) := by
    norm_num [example_object]
  rw [h, Nat.floor_natCast]

/-- C5, witness: the example object has a positive time step and a clear flag, and
with fuel 5 its run makes five iterations. -/
theorem run_terminates_witness :
    ∃ s : LinearElasticity ℚ 2,
      run example_env 5 example_object
        = Except.ok (s, ⌊(0.05 : ℚ) / example_object.time_step⌋₊)
      ∧ s.timestep_number = ⌊(0.05 : ℚ) / example_object.time_step⌋₊
      ∧ s.initial_time = 0
      ∧ s.time = s.initial_time + (s.timestep_number : ℚ) * example_object.time_step
      ∧ s.time ≤ 0.05
      ∧ s.init = false :=
  run_terminates example_env example_object (by norm_num [example_object]) rfl 5
    (le_of_eq example_floor)

end DealFSI
